import Mathlib

/-!
Verification of the query-generation-and-search pipeline of `src/app.py`.

The two pipeline functions are embedded shallowly:

* `generate_queries` (app.py lines 187-206): the LLM call is modelled as a
  `GenOutcome` value (a transport failure or the raw text the model returned);
  the code-fence stripping of lines 200-205 and the `json.loads` call of
  line 206 are embedded as executable Lean functions over the characters of
  that text.
* `search_papers` (app.py lines 209-232): the HTTP round trip is modelled as a
  `SearchOutcome` value (a timeout or a status code together with the already
  JSON-decoded response body); `raise_for_status`, the `data` extraction of
  line 218 and the completeness filter of lines 221-232 are embedded directly.

Python runtime behaviour that the code relies on is embedded explicitly:
dictionary `.get`, truthiness of JSON values, `str.strip` / `startswith` /
`endswith` / `split("\n", 1)` / `rsplit` semantics, and the exceptions the
relevant calls can raise (`IndexError`, `json.JSONDecodeError`, the `requests`
timeout and HTTP-status errors, `AttributeError` / `TypeError` on ill-shaped
bodies).  JSON numbers are modelled as integers: no claim involves fractional
numbers, and the only numeric field the code touches is `year`.
-/

namespace AcademicSearch

/-- JSON values as produced by Python's `json` module; object fields keep
insertion order, as Python dictionaries do. -/
inductive Json where
  | null : Json
  | bool : Bool → Json
  | num : Int → Json
  | str : String → Json
  | arr : List Json → Json
  | obj : List (String × Json) → Json

/-- The exceptions the embedded fragment of `app.py` can raise.  The spec's
error taxonomy maps onto them: `generationError` is its GenerationError (LLM
transport failure), `malformedResponse` its MalformedResponseError
(`json.JSONDecodeError`), and `requestTimeout` / `httpError` its SearchError. -/
inductive PyError where
  | generationError : PyError
  | malformedResponse : PyError
  | indexError : PyError
  | requestTimeout : PyError
  | httpError : Nat → PyError
  | attributeError : PyError
  | typeError : PyError
deriving DecidableEq

/-- Python dictionary lookup `d.get(k)` on a `Json.obj` field list. -/
def pyGet : List (String × Json) → String → Option Json
  | [], _ => none
  | (k, v) :: rest, key => if k = key then some v else pyGet rest key

/-- Python truthiness of a JSON value (`if p.get(...)` in app.py line 223). -/
def pyTruthy : Json → Bool
  | Json.null => false
  | Json.bool b => b
  | Json.num n => !(n == 0)
  | Json.str s => !(s == "")
  | Json.arr xs => !xs.isEmpty
  | Json.obj fs => !fs.isEmpty

/-- Truthiness of a `d.get(k)` result; a missing key gives `None`, which is
falsy. -/
def truthyOpt : Option Json → Bool
  | some v => pyTruthy v
  | none => false

def truthyGet (fs : List (String × Json)) (k : String) : Bool :=
  truthyOpt (pyGet fs k)

/-- The condition of app.py lines 223-230: keep a paper only when all six
required fields are truthy. -/
def keepPaper (fs : List (String × Json)) : Bool :=
  truthyGet fs "paperId" && truthyGet fs "title" && truthyGet fs "abstract" &&
    truthyGet fs "year" && truthyGet fs "authors" && truthyGet fs "url"

/-- The filtering loop of app.py lines 221-232.  A non-dictionary element has
no `.get` method, so Python raises AttributeError there. -/
def filterPapers : List Json → Except PyError (List Json)
  | [] => Except.ok []
  | p :: ps =>
    match p with
    | Json.obj fs =>
      match filterPapers ps with
      | Except.ok rest =>
        Except.ok (if keepPaper fs then Json.obj fs :: rest else rest)
      | Except.error e => Except.error e
    | _ => Except.error PyError.attributeError

/-- Endpoint URL from app.py line 15. -/
def SEMANTIC_SCHOLAR_URL : String :=
  "https://api.semanticscholar.org/graph/v1/paper/search"

/-- Field-selection list from app.py line 16. -/
def PAPER_FIELDS : String := "title,abstract,year,authors,venue,url,citationCount"

/-- The `limit` request parameter of app.py line 211. -/
def searchLimit : Nat := 10

/-- The `timeout` argument of app.py line 216. -/
def searchTimeout : Nat := 15

/-- The observable outcome of the HTTP request of app.py line 216: either the
15-unit timeout fired, or a response with a status code and a JSON-decoded
body arrived. -/
inductive SearchOutcome where
  | timeout : SearchOutcome
  | response : Nat → Json → SearchOutcome

/-- Model of `resp.raise_for_status()` (app.py line 217): `requests` raises an
HTTPError exactly for status codes in 400-599. -/
def raise_for_status (status : Nat) : Except PyError Unit :=
  if 400 ≤ status ∧ status < 600 then Except.error (PyError.httpError status)
  else Except.ok ()

/-- Model of `resp.json().get("data", [])` (app.py line 218): a non-dictionary body has
no `.get` method. -/
def getData : Json → Except PyError Json
  | Json.obj fs => Except.ok ((pyGet fs "data").getD (Json.arr []))
  | _ => Except.error PyError.attributeError

/-- Model of `for p in data` (app.py line 222): lists iterate their elements, strings
their characters, dictionaries their keys; other values are not iterable. -/
def iterData : Json → Except PyError (List Json)
  | Json.arr xs => Except.ok xs
  | Json.str s => Except.ok (s.data.map (fun c => Json.str (String.mk [c])))
  | Json.obj fs => Except.ok (fs.map (fun kv => Json.str kv.1))
  | _ => Except.error PyError.typeError

/-- The part of `search_papers` after the status check: app.py lines 218-232. -/
def searchBody (body : Json) : Except PyError (List Json) :=
  match getData body with
  | Except.ok d =>
    match iterData d with
    | Except.ok xs => filterPapers xs
    | Except.error e => Except.error e
  | Except.error e => Except.error e

/-- Function `search_papers` (app.py lines 209-232).  The query only determines the
outgoing request parameters; the behaviour on a given upstream outcome does
not depend on it. -/
def search_papers (_query : String) : SearchOutcome → Except PyError (List Json)
  | SearchOutcome.timeout => Except.error PyError.requestTimeout
  | SearchOutcome.response status body =>
    match raise_for_status status with
    | Except.ok _ => searchBody body
    | Except.error e => Except.error e

/-- The observable outcome of `model.generate_content(prompt)` (app.py line
199): a transport/auth failure, or the raw text of the completion. -/
inductive GenOutcome where
  | transportError : GenOutcome
  | text : String → GenOutcome

/-- The characters Python's no-argument `str.strip()` removes. -/
def isPySpace (c : Char) : Bool :=
  c = ' ' || c = '\t' || c = '\n' || c = '\r' || c = Char.ofNat 11 || c = Char.ofNat 12

def pyStripList (cs : List Char) : List Char :=
  ((cs.dropWhile isPySpace).reverse.dropWhile isPySpace).reverse

/-- Python `text.strip()` (app.py lines 200 and 206). -/
def pyStrip (s : String) : String := String.mk (pyStripList s.data)

def backquote : Char := Char.ofNat 96

/-- Model of `text.startswith(three backquotes)` (app.py line 202). -/
def startsWithFence : List Char → Bool
  | a :: b :: c :: _ => a = backquote && b = backquote && c = backquote
  | _ => false

/-- Model of `text.endswith(three backquotes)` (app.py line 204): the last three
characters are backquotes, i.e. the reversed text starts with the fence. -/
def endsWithFence (cs : List Char) : Bool := startsWithFence cs.reverse

/-- Everything after the first newline, or `none` when there is none (then
`text.split("\n", 1)` has a single element and `[1]` raises IndexError). -/
def dropFirstLine : List Char → Option (List Char)
  | [] => none
  | c :: rest => if c = '\n' then some rest else dropFirstLine rest

/-- app.py lines 202-203: `if text.startswith(fence): text = text.split("\n", 1)[1]`. -/
def stripFenceHead (cs : List Char) : Except PyError (List Char) :=
  if startsWithFence cs then
    match dropFirstLine cs with
    | some rest => Except.ok rest
    | none => Except.error PyError.indexError
  else Except.ok cs

/-- app.py lines 204-205: `if text.endswith(fence): text = text.rsplit(fence, 1)[0]`.
When the text ends with the fence, its last occurrence is exactly the final
three characters, so the kept part is the text without them. -/
def stripFenceTail (cs : List Char) : List Char :=
  if endsWithFence cs then (cs.reverse.drop 3).reverse else cs

/-- The fence-stripping block, app.py lines 202-205. -/
def stripFences (t : String) : Except PyError String :=
  match stripFenceHead t.data with
  | Except.ok cs => Except.ok (String.mk (stripFenceTail cs))
  | Except.error e => Except.error e

/-- The text handed to `json.loads` on app.py line 206 (`text.strip()` after
fence stripping), or the exception raised while stripping. -/
def jsonInput (raw : String) : Except PyError String :=
  match stripFences (pyStrip raw) with
  | Except.ok t => Except.ok (pyStrip t)
  | Except.error e => Except.error e

/-- JSON whitespace accepted between tokens by `json.loads`. -/
def isJsonWs (c : Char) : Bool := c = ' ' || c = '\t' || c = '\n' || c = '\r'

def skipWs (cs : List Char) : List Char := cs.dropWhile isJsonWs

def dquote : Char := Char.ofNat 34

def bslash : Char := Char.ofNat 92

def lbrace : Char := Char.ofNat 123

def rbrace : Char := Char.ofNat 125

def lbrack : Char := Char.ofNat 91

def rbrack : Char := Char.ofNat 93

/-- Value of a hexadecimal digit, for string escapes of the form `\uXXXX`. -/
def hexVal (c : Char) : Option Nat :=
  if c.isDigit then some (c.toNat - 48)
  else if 97 ≤ c.toNat ∧ c.toNat ≤ 102 then some (c.toNat - 87)
  else if 65 ≤ c.toNat ∧ c.toNat ≤ 70 then some (c.toNat - 55)
  else none

/-- Single-character JSON string escapes. -/
def escChar (c : Char) : Option Char :=
  if c = dquote then some dquote
  else if c = bslash then some bslash
  else if c = '/' then some '/'
  else if c = 'b' then some (Char.ofNat 8)
  else if c = 'f' then some (Char.ofNat 12)
  else if c = 'n' then some '\n'
  else if c = 'r' then some '\r'
  else if c = 't' then some '\t'
  else none

/-- Body of a JSON string after the opening quote: the decoded characters and
the remaining input.  Raw control characters are rejected, as `json.loads`
does in its default strict mode. -/
def parseStringBody : List Char → Option (List Char × List Char)
  | [] => none
  | c :: rest =>
    if c = dquote then some ([], rest)
    else if c = bslash then
      match rest with
      | [] => none
      | e :: rest2 =>
        if e = 'u' then
          match rest2 with
          | a :: b :: c2 :: d :: rest3 =>
            match hexVal a, hexVal b, hexVal c2, hexVal d with
            | some x, some y, some z, some w =>
              (parseStringBody rest3).map
                (fun sr => (Char.ofNat (4096 * x + 256 * y + 16 * z + w) :: sr.1, sr.2))
            | _, _, _, _ => none
          | _ => none
        else
          match escChar e with
          | some ec => (parseStringBody rest2).map (fun sr => (ec :: sr.1, sr.2))
          | none => none
    else if c.toNat < 32 then none
    else (parseStringBody rest).map (fun sr => (c :: sr.1, sr.2))

/-- Maximal run of decimal digits at the front of the input. -/
def takeDigits : List Char → List Char × List Char
  | [] => ([], [])
  | c :: rest =>
    if c.isDigit then
      let dr := takeDigits rest
      (c :: dr.1, dr.2)
    else ([], c :: rest)

def digitsToNat (ds : List Char) : Nat :=
  ds.foldl (fun n c => 10 * n + (c.toNat - 48)) 0

/-- JSON integer literals (grammar of `json.loads`, leading zeros rejected).
Fractional and exponent forms are outside the embedded fragment: no value the
code manipulates is a non-integer number. -/
def parseNumber (cs : List Char) : Option (Json × List Char) :=
  let nc : Bool × List Char :=
    match cs with
    | c :: rest => if c = '-' then (true, rest) else (false, cs)
    | [] => (false, cs)
  match takeDigits nc.2 with
  | ([], _) => none
  | (ds, rest) =>
    if 1 < ds.length ∧ ds.headI = '0' then none
    else
      match rest with
      | r :: _ =>
        if r = '.' || r = 'e' || r = 'E' then none
        else some (Json.num (if nc.1 then -(digitsToNat ds : Int) else (digitsToNat ds : Int)), rest)
      | [] => some (Json.num (if nc.1 then -(digitsToNat ds : Int) else (digitsToNat ds : Int)), rest)

/-- Python-dictionary insertion while building an object: a duplicate key
keeps its position and takes the new value. -/
def dictInsert : List (String × Json) → String → Json → List (String × Json)
  | [], k, v => [(k, v)]
  | (k0, v0) :: rest, k, v =>
    if k0 = k then (k, v) :: rest else (k0, v0) :: dictInsert rest k v

mutual

/-- One JSON value, recursive-descent style; the fuel bounds nesting and is
chosen large enough for the whole input in `pyJsonLoads`. -/
def parseValue : Nat → List Char → Option (Json × List Char)
  | 0, _ => none
  | Nat.succ fuel, cs =>
    match skipWs cs with
    | [] => none
    | c :: rest =>
      if c = lbrace then
        match skipWs rest with
        | d :: rest2 =>
          if d = rbrace then some (Json.obj [], rest2)
          else parseMembers fuel (d :: rest2) []
        | [] => none
      else if c = lbrack then
        match skipWs rest with
        | d :: rest2 =>
          if d = rbrack then some (Json.arr [], rest2)
          else parseItems fuel (d :: rest2) []
        | [] => none
      else if c = dquote then
        match parseStringBody rest with
        | some sr => some (Json.str (String.mk sr.1), sr.2)
        | none => none
      else
        match c :: rest with
        | 't' :: 'r' :: 'u' :: 'e' :: r => some (Json.bool true, r)
        | 'f' :: 'a' :: 'l' :: 's' :: 'e' :: r => some (Json.bool false, r)
        | 'n' :: 'u' :: 'l' :: 'l' :: r => some (Json.null, r)
        | cs2 => parseNumber cs2

/-- Comma-separated array items up to the closing bracket. -/
def parseItems : Nat → List Char → List Json → Option (Json × List Char)
  | 0, _, _ => none
  | Nat.succ fuel, cs, acc =>
    match parseValue fuel cs with
    | some vr =>
      match skipWs vr.2 with
      | d :: rest2 =>
        if d = ',' then parseItems fuel rest2 (acc ++ [vr.1])
        else if d = rbrack then some (Json.arr (acc ++ [vr.1]), rest2)
        else none
      | [] => none
    | none => none

/-- Comma-separated `"key": value` members up to the closing brace. -/
def parseMembers : Nat → List Char → List (String × Json) → Option (Json × List Char)
  | 0, _, _ => none
  | Nat.succ fuel, cs, acc =>
    match skipWs cs with
    | d :: rest =>
      if d = dquote then
        match parseStringBody rest with
        | some kr =>
          match skipWs kr.2 with
          | e :: rest3 =>
            if e = ':' then
              match parseValue fuel rest3 with
              | some vr =>
                match skipWs vr.2 with
                | f :: rest5 =>
                  if f = ',' then parseMembers fuel rest5 (dictInsert acc (String.mk kr.1) vr.1)
                  else if f = rbrace then
                    some (Json.obj (dictInsert acc (String.mk kr.1) vr.1), rest5)
                  else none
                | [] => none
              | none => none
            else none
          | [] => none
        | none => none
      else none
    | [] => none

end

/-- Acceptance of a whole parse: exactly one value, then only whitespace. -/
def finishParse : Option (Json × List Char) → Except PyError Json
  | some vr =>
    if (skipWs vr.2).isEmpty then Except.ok vr.1
    else Except.error PyError.malformedResponse
  | none => Except.error PyError.malformedResponse

/-- Model of `json.loads` (app.py line 206); a failed parse raises
`json.JSONDecodeError`, the spec's MalformedResponseError. -/
def pyJsonLoads (s : String) : Except PyError Json :=
  finishParse (parseValue (2 * s.length + 4) s.data)

/-- The fixed instructional prompt of app.py lines 189-198 with the topic
interpolated. -/
def buildPrompt (topic : String) : String :=
  "Given a research topic, generate 3 academic search query variants.\n" ++
    "Return ONLY valid JSON in this exact format:\n" ++
    "\x7b\n" ++
    "  \"broad\": \"general academic query covering the topic widely\",\n" ++
    "  \"focused\": \"specific query targeting core concepts\",\n" ++
    "  \"method\": \"query emphasizing methodologies and techniques\"\n" ++
    "\x7d\n\n" ++
    "Topic: " ++ topic

/-- Function `generate_queries` (app.py lines 187-206).  The topic only enters the
prompt (`buildPrompt`); what the function then does is determined by the model
outcome: strip, strip fences, parse, and return the parsed value unchanged. -/
def generate_queries (_topic : String) : GenOutcome → Except PyError Json
  | GenOutcome.transportError => Except.error PyError.generationError
  | GenOutcome.text raw =>
    match jsonInput raw with
    | Except.ok t => pyJsonLoads t
    | Except.error e => Except.error e

/-- From the spec's words (section 3, Paper): a field value that is "present
and non-empty/non-null".  Stated over a `d.get` result so that a missing key
is "not present". -/
def presentNonEmpty : Option Json → Bool
  | none => false
  | some Json.null => false
  | some (Json.str s) => !(s == "")
  | some (Json.arr xs) => !xs.isEmpty
  | some (Json.bool _) => true
  | some (Json.num _) => true
  | some (Json.obj _) => true

/-- From the spec's words: the completeness predicate — identifier, title,
abstract, year, authors list and URL all present and non-empty. -/
def specPaperComplete (p : Json) : Bool :=
  match p with
  | Json.obj fs =>
    presentNonEmpty (pyGet fs "paperId") && presentNonEmpty (pyGet fs "title") &&
      presentNonEmpty (pyGet fs "abstract") && presentNonEmpty (pyGet fs "year") &&
      presentNonEmpty (pyGet fs "authors") && presentNonEmpty (pyGet fs "url")
  | _ => false

def nonEmptyStringAt (fs : List (String × Json)) (k : String) : Bool :=
  match pyGet fs k with
  | some (Json.str s) => !(s == "")
  | _ => false

/-- From the spec's words (section 3, QueryVariantSet): a mapping with exactly
the three keys `broad`, `focused`, `method`, each a non-empty string. -/
def specVariantSetComplete : Json → Bool
  | Json.obj fs =>
    nonEmptyStringAt fs "broad" && nonEmptyStringAt fs "focused" &&
      nonEmptyStringAt fs "method" && fs.length == 3
  | _ => false

/-- A record with all six required fields truthy (Scenario C, first record). -/
def samplePaperFields : List (String × Json) :=
  [("paperId", Json.str "1"), ("title", Json.str "T"), ("abstract", Json.str "A"),
    ("year", Json.num 2023), ("authors", Json.arr [Json.obj [("name", Json.str "X")]]),
    ("url", Json.str "u")]

def samplePaper : Json := Json.obj samplePaperFields

/-- A record missing most required fields (Scenario C, second record). -/
def paperMissingFields : Json :=
  Json.obj [("paperId", Json.str "2"), ("title", Json.str "T2")]

/-- All fields present, but `year` is the integer 0. -/
def paperYearZeroFields : List (String × Json) :=
  [("paperId", Json.str "p0"), ("title", Json.str "T0"), ("abstract", Json.str "A0"),
    ("year", Json.num 0), ("authors", Json.arr [Json.obj [("name", Json.str "N")]]),
    ("url", Json.str "u0")]

def paperYearZero : Json := Json.obj paperYearZeroFields

/-- All fields present, but `authors` is the empty list. -/
def paperEmptyAuthorsFields : List (String × Json) :=
  [("paperId", Json.str "p1"), ("title", Json.str "T1"), ("abstract", Json.str "A1"),
    ("year", Json.num 2020), ("authors", Json.arr []), ("url", Json.str "u1")]

def paperEmptyAuthors : Json := Json.obj paperEmptyAuthorsFields

/-- A non-empty `authors` list whose single entry has no `name` field. -/
def paperAnonAuthorsFields : List (String × Json) :=
  [("paperId", Json.str "p2"), ("title", Json.str "T2"), ("abstract", Json.str "A2"),
    ("year", Json.num 2021), ("authors", Json.arr [Json.obj [("authorId", Json.str "a1")]]),
    ("url", Json.str "u2")]

def paperAnonAuthors : Json := Json.obj paperAnonAuthorsFields

/-- An error result that the spec's SearchError covers: the request timeout or
an HTTP-status failure (as opposed to a success or a body-shape exception). -/
def isSearchError : Except PyError (List Json) → Bool
  | Except.error PyError.requestTimeout => true
  | Except.error (PyError.httpError _) => true
  | _ => false

theorem truthy_present (o : Option Json) (h : truthyOpt o = true) :
    presentNonEmpty o = true := by
  cases o with
  | none => simp [truthyOpt] at h
  | some v => cases v <;> simp_all [truthyOpt, pyTruthy, presentNonEmpty]

theorem keepPaper_complete (fs : List (String × Json)) (h : keepPaper fs = true) :
    specPaperComplete (Json.obj fs) = true := by
  unfold keepPaper truthyGet at h
  simp only [Bool.and_eq_true] at h
  obtain ⟨⟨⟨⟨⟨h1, h2⟩, h3⟩, h4⟩, h5⟩, h6⟩ := h
  unfold specPaperComplete
  simp only [Bool.and_eq_true]
  exact ⟨⟨⟨⟨⟨truthy_present _ h1, truthy_present _ h2⟩, truthy_present _ h3⟩,
    truthy_present _ h4⟩, truthy_present _ h5⟩, truthy_present _ h6⟩

theorem filterPapers_mem (xs : List Json) (res : List Json)
    (h : filterPapers xs = Except.ok res) (p : Json) (hp : p ∈ res) :
    ∃ fs, p = Json.obj fs ∧ keepPaper fs = true := by
  induction xs generalizing res with
  | nil =>
    simp only [filterPapers, Except.ok.injEq] at h
    subst h
    cases hp
  | cons x t ih =>
    cases x with
    | obj fs =>
      simp only [filterPapers] at h
      cases hft : filterPapers t with
      | error e => rw [hft] at h; exact Except.noConfusion h
      | ok rest =>
        rw [hft] at h
        dsimp only at h
        by_cases hk : keepPaper fs = true
        · rw [if_pos hk] at h
          injection h with h'
          subst h'
          rcases List.mem_cons.mp hp with rfl | hp2
          · exact ⟨fs, rfl, hk⟩
          · exact ih rest hft hp2
        · rw [if_neg hk] at h
          injection h with h'
          subst h'
          exact ih rest hft hp
    | null => simp only [filterPapers] at h; exact Except.noConfusion h
    | bool b => simp only [filterPapers] at h; exact Except.noConfusion h
    | num n => simp only [filterPapers] at h; exact Except.noConfusion h
    | str s => simp only [filterPapers] at h; exact Except.noConfusion h
    | arr ys => simp only [filterPapers] at h; exact Except.noConfusion h

theorem filterPapers_sublist (xs res : List Json)
    (h : filterPapers xs = Except.ok res) : List.Sublist res xs := by
  induction xs generalizing res with
  | nil =>
    simp only [filterPapers, Except.ok.injEq] at h
    subst h
    exact List.nil_sublist []
  | cons x t ih =>
    cases x with
    | obj fs =>
      simp only [filterPapers] at h
      cases hft : filterPapers t with
      | error e => rw [hft] at h; exact Except.noConfusion h
      | ok rest =>
        rw [hft] at h
        dsimp only at h
        by_cases hk : keepPaper fs = true
        · rw [if_pos hk] at h
          injection h with h'
          subst h'
          exact List.Sublist.cons₂ (Json.obj fs) (ih rest hft)
        · rw [if_neg hk] at h
          injection h with h'
          subst h'
          exact List.Sublist.cons (Json.obj fs) (ih rest hft)
    | null => simp only [filterPapers] at h; exact Except.noConfusion h
    | bool b => simp only [filterPapers] at h; exact Except.noConfusion h
    | num n => simp only [filterPapers] at h; exact Except.noConfusion h
    | str s => simp only [filterPapers] at h; exact Except.noConfusion h
    | arr ys => simp only [filterPapers] at h; exact Except.noConfusion h

theorem filterPapers_not_searchError (xs : List Json) :
    isSearchError (filterPapers xs) = false := by
  induction xs with
  | nil => rfl
  | cons x t ih =>
    cases x with
    | obj fs =>
      simp only [filterPapers]
      cases hft : filterPapers t with
      | error e => rw [hft] at ih; exact ih
      | ok rest => by_cases hk : keepPaper fs = true <;> simp [hk, isSearchError]
    | null => rfl
    | bool b => rfl
    | num n => rfl
    | str s => rfl
    | arr ys => rfl

theorem searchBody_not_searchError (body : Json) :
    isSearchError (searchBody body) = false := by
  unfold searchBody
  cases body with
  | obj fs =>
    simp only [getData]
    cases hd : (pyGet fs "data").getD (Json.arr []) <;>
      simp only [iterData, isSearchError] <;>
      first
        | rfl
        | exact filterPapers_not_searchError _
  | null => rfl
  | bool b => rfl
  | num n => rfl
  | str s => rfl
  | arr ys => rfl

theorem search_ok_filter (q : String) (out : SearchOutcome) (res : List Json)
    (h : search_papers q out = Except.ok res) :
    ∃ xs, filterPapers xs = Except.ok res := by
  cases out with
  | timeout => exact Except.noConfusion h
  | response s b =>
    simp only [search_papers] at h
    cases hrs : raise_for_status s with
    | error e => rw [hrs] at h; exact Except.noConfusion h
    | ok u =>
      rw [hrs] at h
      dsimp only at h
      unfold searchBody at h
      cases hd : getData b with
      | error e => rw [hd] at h; exact Except.noConfusion h
      | ok d =>
        rw [hd] at h
        dsimp only at h
        cases hi : iterData d with
        | error e => rw [hi] at h; exact Except.noConfusion h
        | ok xs => rw [hi] at h; dsimp only at h; exact ⟨xs, h⟩

theorem stripFenceHead_error (cs : List Char) (e : PyError)
    (h : stripFenceHead cs = Except.error e) : e = PyError.indexError := by
  unfold stripFenceHead at h
  by_cases hs : startsWithFence cs = true
  · rw [if_pos hs] at h
    cases hd : dropFirstLine cs with
    | some r => rw [hd] at h; exact Except.noConfusion h
    | none => rw [hd] at h; injection h with h'; exact h'.symm
  · rw [if_neg hs] at h
    exact Except.noConfusion h

theorem jsonInput_error (raw : String) (e : PyError)
    (h : jsonInput raw = Except.error e) : e = PyError.indexError := by
  unfold jsonInput at h
  cases hs : stripFences (pyStrip raw) with
  | ok t => rw [hs] at h; exact Except.noConfusion h
  | error e2 =>
    rw [hs] at h
    injection h with h'
    subst h'
    unfold stripFences at hs
    cases hh : stripFenceHead (pyStrip raw).data with
    | ok cs => rw [hh] at hs; exact Except.noConfusion hs
    | error e3 =>
      rw [hh] at hs
      injection hs with h2
      subst h2
      exact stripFenceHead_error _ _ hh

theorem pyJsonLoads_error (s : String) (e : PyError)
    (h : pyJsonLoads s = Except.error e) : e = PyError.malformedResponse := by
  unfold pyJsonLoads finishParse at h
  cases hp : parseValue (2 * s.length + 4) s.data with
  | none => rw [hp] at h; injection h with h'; exact h'.symm
  | some vr =>
    rw [hp] at h
    dsimp only at h
    by_cases hw : (skipWs vr.2).isEmpty = true
    · rw [if_pos hw] at h; exact Except.noConfusion h
    · rw [if_neg hw] at h; injection h with h'; exact h'.symm

theorem dropWhile_dropWhile (p : Char → Bool) (l : List Char) :
    List.dropWhile p (List.dropWhile p l) = List.dropWhile p l := by
  induction l with
  | nil => rfl
  | cons a t ih => cases ha : p a <;> simp [List.dropWhile_cons, ha, ih]

theorem dropWhile_suffix_exists (p : Char → Bool) (l : List Char) :
    ∃ u, u ++ List.dropWhile p l = l := by
  induction l with
  | nil => exact ⟨[], rfl⟩
  | cons a t ih =>
    cases ha : p a with
    | true =>
      obtain ⟨u, hu⟩ := ih
      exact ⟨a :: u, by simp [List.dropWhile_cons, ha, hu]⟩
    | false => exact ⟨[], by simp [List.dropWhile_cons, ha]⟩

/-- Right-trimming keeps the no-leading-space property. -/
theorem dropWhile_trimRight (p : Char → Bool) (m : List Char)
    (hm : List.dropWhile p m = m) :
    List.dropWhile p (List.dropWhile p m.reverse).reverse =
      (List.dropWhile p m.reverse).reverse := by
  obtain ⟨u, hu⟩ := dropWhile_suffix_exists p m.reverse
  have hDeq : m = (List.dropWhile p m.reverse).reverse ++ u.reverse := by
    have h2 := congrArg List.reverse hu
    rw [List.reverse_append, List.reverse_reverse] at h2
    exact h2.symm
  cases hRc : (List.dropWhile p m.reverse).reverse with
  | nil => simp
  | cons r rt =>
    have hpr : p r = false := by
      cases hpr2 : p r with
      | false => rfl
      | true =>
        exfalso
        rw [hRc] at hDeq
        rw [hDeq, List.cons_append, List.dropWhile_cons, if_pos hpr2] at hm
        obtain ⟨w, hw⟩ := dropWhile_suffix_exists p (rt ++ u.reverse)
        rw [hm] at hw
        have hlen := congrArg List.length hw
        simp at hlen
        omega
    rw [List.dropWhile_cons, if_neg (by simp [hpr])]

theorem pyStripList_idem (l : List Char) :
    pyStripList (pyStripList l) = pyStripList l := by
  unfold pyStripList
  have hm : List.dropWhile isPySpace (List.dropWhile isPySpace l) =
      List.dropWhile isPySpace l := dropWhile_dropWhile isPySpace l
  have h1 := dropWhile_trimRight isPySpace (List.dropWhile isPySpace l) hm
  rw [h1, List.reverse_reverse, dropWhile_dropWhile]

theorem pyStrip_idem (s : String) : pyStrip (pyStrip s) = pyStrip s :=
  congrArg String.mk (pyStripList_idem s.data)

/-- C1 (amended): for every topic, `generate_queries` either fails (with the
generation error on a transport failure, and otherwise with whatever exception
stripping or parsing raises) or returns exactly the JSON value parsed from the
fence-stripped response — no validation of the three keys or of non-emptiness
is performed, so the returned mapping can be partial. -/
theorem C1_generate_unvalidated (topic : String) (out : GenOutcome) :
    (out = GenOutcome.transportError →
      generate_queries topic out = Except.error PyError.generationError) ∧
    (∀ raw v, out = GenOutcome.text raw →
      generate_queries topic out = Except.ok v →
      ∃ t, jsonInput raw = Except.ok t ∧ pyJsonLoads t = Except.ok v) := by
  constructor
  · intro h
    subst h
    rfl
  · intro raw v hout hv
    subst hout
    simp only [generate_queries] at hv
    cases hj : jsonInput raw with
    | error e => rw [hj] at hv; exact Except.noConfusion hv
    | ok t =>
      rw [hj] at hv
      exact ⟨t, rfl, hv⟩

theorem C1_generate_unvalidated_witness :
    ∃ t, jsonInput "3" = Except.ok t ∧ pyJsonLoads t = Except.ok (Json.num 3) :=
  (C1_generate_unvalidated "ai" (GenOutcome.text "3")).2 "3" (Json.num 3) rfl rfl

/-- C1 counterexample: a syntactically valid JSON reply carrying only the
`broad` key is returned as-is — a mapping missing `focused` and `method`, not
one of the two defined generation errors. -/
theorem C1_partial_mapping_returned :
    generate_queries "ai" (GenOutcome.text "\x7b\"broad\": \"x\"\x7d") =
      Except.ok (Json.obj [("broad", Json.str "x")]) ∧
    specVariantSetComplete (Json.obj [("broad", Json.str "x")]) = false :=
  ⟨rfl, rfl⟩

/-- C2: every element of a successfully returned search result satisfies the
completeness predicate: identifier, title, abstract, year, authors list and
URL all present and non-empty. -/
theorem C2_search_results_complete (query : String) (out : SearchOutcome)
    (res : List Json) (hok : search_papers query out = Except.ok res)
    (p : Json) (hp : p ∈ res) : specPaperComplete p = true := by
  obtain ⟨xs, hf⟩ := search_ok_filter query out res hok
  obtain ⟨fs, rfl, hk⟩ := filterPapers_mem xs res hf p hp
  exact keepPaper_complete fs hk

theorem C2_search_results_complete_witness :
    specPaperComplete samplePaper = true :=
  C2_search_results_complete "q"
    (SearchOutcome.response 200 (Json.obj [("data", Json.arr [samplePaper])]))
    [samplePaper] rfl samplePaper (List.mem_singleton.mpr rfl)

/-- C3: the returned list is a sublist of the upstream `data` array (order
preserved, retained records unchanged, length never grows), and when the
upstream honours the requested page size of 10, so does the result. -/
theorem C3_filter_sublist_bounded (query : String) (status : Nat)
    (xs res : List Json)
    (hok : search_papers query
      (SearchOutcome.response status (Json.obj [("data", Json.arr xs)])) =
      Except.ok res) :
    List.Sublist res xs ∧ res.length ≤ xs.length ∧
      (xs.length ≤ searchLimit → res.length ≤ searchLimit) := by
  simp only [search_papers] at hok
  cases hrs : raise_for_status status with
  | error e => rw [hrs] at hok; exact Except.noConfusion hok
  | ok u =>
    rw [hrs] at hok
    dsimp only at hok
    have hf : filterPapers xs = Except.ok res := hok
    have hs := filterPapers_sublist xs res hf
    exact ⟨hs, hs.length_le, fun hx => le_trans hs.length_le hx⟩

theorem C3_filter_sublist_bounded_witness :
    List.Sublist [samplePaper] [samplePaper, paperMissingFields] ∧
    List.length [samplePaper] ≤ List.length [samplePaper, paperMissingFields] ∧
    (List.length [samplePaper, paperMissingFields] ≤ searchLimit →
      List.length [samplePaper] ≤ searchLimit) :=
  C3_filter_sublist_bounded "q" 200 [samplePaper, paperMissingFields]
    [samplePaper] rfl

/-- C4 (Scenario A): a fenced JSON block with a `json` language tag is
stripped of its first line and of its trailing fence, and the remainder parses
to exactly the three-key mapping. -/
theorem C4_fenced_json_parsed :
    generate_queries "ai" (GenOutcome.text
      "```json\n\x7b\"broad\":\"machine learning\",\"focused\":\"transformer interpretability\",\"method\":\"attention visualization techniques\"\x7d\n```") =
      Except.ok (Json.obj [("broad", Json.str "machine learning"),
        ("focused", Json.str "transformer interpretability"),
        ("method", Json.str "attention visualization techniques")]) := rfl

/-- C5 (Scenario D): an empty `data` array, and an absent `data` key, both
yield the empty list as an `ok` result, not an error. -/
theorem C5_empty_data_ok :
    search_papers "q" (SearchOutcome.response 200
      (Json.obj [("data", Json.arr [])])) = Except.ok [] ∧
    search_papers "q" (SearchOutcome.response 200
      (Json.obj [("total", Json.num 0)])) = Except.ok [] :=
  ⟨rfl, rfl⟩

/-- C6 (amended): the search raises its SearchError (timeout or HTTP-status
failure, carrying the upstream status) exactly when the request timed out or
the status is in 400-599 — `raise_for_status` does not fail on other non-2xx
statuses such as 304.  The request timeout is the fixed 15 units. -/
theorem C6_search_error_iff (query : String) (out : SearchOutcome) :
    searchTimeout = 15 ∧
    (isSearchError (search_papers query out) = true ↔
      out = SearchOutcome.timeout ∨
      ∃ s b, out = SearchOutcome.response s b ∧ 400 ≤ s ∧ s < 600) := by
  refine ⟨rfl, ?_⟩
  cases out with
  | timeout =>
    simp [search_papers, isSearchError]
  | response s b =>
    simp only [search_papers]
    by_cases hc : 400 ≤ s ∧ s < 600
    · have hrs : raise_for_status s = Except.error (PyError.httpError s) := by
        simp [raise_for_status, hc]
      rw [hrs]
      dsimp only [isSearchError]
      exact ⟨fun _ => Or.inr ⟨s, b, rfl, hc⟩, fun _ => rfl⟩
    · have hrs : raise_for_status s = Except.ok () := by
        simp only [raise_for_status, if_neg hc]
      rw [hrs]
      dsimp only
      rw [searchBody_not_searchError b]
      constructor
      · intro hfalse
        exact Bool.noConfusion hfalse
      · intro hr
        rcases hr with hr | ⟨s2, b2, heq, h4, h6⟩
        · exact SearchOutcome.noConfusion hr
        · injection heq with hs2 hb2
          subst hs2
          exact absurd ⟨h4, h6⟩ hc

theorem C6_search_error_iff_witness :
    searchTimeout = 15 ∧
    (isSearchError (search_papers "q" SearchOutcome.timeout) = true ↔
      SearchOutcome.timeout = SearchOutcome.timeout ∨
      ∃ s b, SearchOutcome.timeout = SearchOutcome.response s b ∧
        400 ≤ s ∧ s < 600) :=
  C6_search_error_iff "q" SearchOutcome.timeout

/-- C6 counterexample: status 304 is not a success (2xx) status, yet the call
returns a result instead of raising — `raise_for_status` only fails on
400-599. -/
theorem C6_status_304_no_error :
    (¬ (200 ≤ (304 : Nat) ∧ (304 : Nat) < 300)) ∧
    search_papers "q" (SearchOutcome.response 304
      (Json.obj [("data", Json.arr [])])) = Except.ok [] :=
  ⟨by decide, rfl⟩

/-- C7 (amended): `generate_queries` raises the MalformedResponseError exactly
when the fence-stripped text fails to parse as JSON; JSON that parses but
misses required keys is returned without error (no key check exists). -/
theorem C7_malformed_iff_parse_failure (topic raw : String) :
    generate_queries topic (GenOutcome.text raw) =
        Except.error PyError.malformedResponse ↔
      ∃ t, jsonInput raw = Except.ok t ∧
        pyJsonLoads t = Except.error PyError.malformedResponse := by
  simp only [generate_queries]
  cases hj : jsonInput raw with
  | error e =>
    have he := jsonInput_error raw e hj
    subst he
    constructor
    · intro h
      injection h with h2
      exact PyError.noConfusion h2
    · intro hr
      obtain ⟨t, ht, hload⟩ := hr
      exact Except.noConfusion ht
  | ok t =>
    constructor
    · intro h
      exact ⟨t, rfl, h⟩
    · intro hr
      obtain ⟨t2, ht2, hload⟩ := hr
      injection ht2 with h2
      subst h2
      exact hload

theorem C7_malformed_iff_parse_failure_witness :
    generate_queries "ai" (GenOutcome.text "not json at all") =
      Except.error PyError.malformedResponse :=
  (C7_malformed_iff_parse_failure "ai" "not json at all").mpr
    ⟨"not json at all", rfl, rfl⟩

/-- C7 counterexample: valid JSON missing two of the three required keys does
not raise MalformedResponseError; it is returned as a partial mapping. -/
theorem C7_missing_keys_no_error :
    generate_queries "ai" (GenOutcome.text "\x7b\"focused\": \"y\"\x7d") =
      Except.ok (Json.obj [("focused", Json.str "y")]) ∧
    generate_queries "ai" (GenOutcome.text "\x7b\"focused\": \"y\"\x7d") ≠
      Except.error PyError.malformedResponse := by
  refine ⟨rfl, ?_⟩
  intro h
  have hok : generate_queries "ai" (GenOutcome.text "\x7b\"focused\": \"y\"\x7d") =
      Except.ok (Json.obj [("focused", Json.str "y")]) := rfl
  rw [h] at hok
  exact Except.noConfusion hok

/-- C8: fence stripping is the identity on unfenced text: when the trimmed
response neither starts nor ends with a triple-backquote fence, the text
handed to the JSON parser is exactly the trimmed response. -/
theorem C8_strip_identity_unfenced (raw : String)
    (h1 : startsWithFence (pyStrip raw).data = false)
    (h2 : endsWithFence (pyStrip raw).data = false) :
    jsonInput raw = Except.ok (pyStrip raw) := by
  have hhead : stripFenceHead (pyStrip raw).data = Except.ok (pyStrip raw).data := by
    unfold stripFenceHead
    rw [if_neg (by simp [h1])]
  have htail : stripFenceTail (pyStrip raw).data = (pyStrip raw).data := by
    unfold stripFenceTail
    rw [if_neg (by simp [h2])]
  unfold jsonInput stripFences
  rw [hhead]
  dsimp only
  rw [htail]
  have hmk : String.mk (pyStrip raw).data = pyStrip raw := rfl
  rw [hmk, pyStrip_idem]

theorem C8_strip_identity_unfenced_witness :
    jsonInput "hello" = Except.ok (pyStrip "hello") :=
  C8_strip_identity_unfenced "hello" rfl rfl

/-- C9: the completeness filter tests Python truthiness, not presence: a
record whose `year` is the integer 0 is dropped, a record whose `authors`
list is empty is dropped, and a record whose non-empty `authors` list has
entries without a `name` field passes and is returned unchanged. -/
theorem C9_truthiness_semantics :
    keepPaper paperYearZeroFields = false ∧
    keepPaper paperEmptyAuthorsFields = false ∧
    keepPaper paperAnonAuthorsFields = true ∧
    search_papers "q" (SearchOutcome.response 200 (Json.obj [("data",
      Json.arr [paperYearZero, paperEmptyAuthors, paperAnonAuthors])])) =
      Except.ok [paperAnonAuthors] :=
  ⟨rfl, rfl, rfl, rfl⟩

/-- C10: when the trimmed response is exactly the three-character fence marker
with no newline, `text.split("\n", 1)[1]` raises IndexError — which is
neither of the two defined generation errors. -/
theorem C10_fence_only_index_error :
    generate_queries "ai" (GenOutcome.text "```") =
      Except.error PyError.indexError ∧
    PyError.indexError ≠ PyError.generationError ∧
    PyError.indexError ≠ PyError.malformedResponse :=
  ⟨rfl, by decide, by decide⟩

end AcademicSearch
